import Mathlib

/-!
# Verification of parside CESR attachment-group parsing and rendering

Shallow embedding of the parside sources:
* `src/message/groups/controller_idx_sigs.rs`
* `src/message/groups/seal_source_triples.rs`
* `src/data.rs` (the `Data` impl for `Value`)
* `src/error.rs`

Byte slices are modelled as `List Nat`; Rust `ParsideResult` is modelled as
`Except String`; operations that may also panic (slice indexing,
`copy_from_slice`, `unimplemented`) return `PResult`, which distinguishes an
`Err` return from a Rust panic.

The cryptographic primitive types (cesride's `Matter` family: `Siger`,
`Prefixer`, `Seqner`, `Saider`) are external collaborators; they are modelled
abstractly through the five-operation Primitive Capability Contract the spec
describes.  The primitive parser factory (`src/message/parsers.rs`), the cold
start code (`src/message/cold_code.rs`) and the `Counter` header type are not
among the provided sources and are modelled from the spec where noted.
-/

/-- Outcome of a Rust computation: an `Ok` value, an `Err` return (the `?`
operator propagates these), or a panic (process abort: slice-bound violations,
`copy_from_slice` length mismatches, `unimplemented!`). -/
inductive PResult (α : Type) where
  | ok : α → PResult α
  | err : String → PResult α
  | panic : String → PResult α
  deriving Repr, DecidableEq

/-- Whether a `PResult` is an `Err` return. -/
def PResult.isErr {α : Type} : PResult α → Bool
  | .ok _ => false
  | .err _ => true
  | .panic _ => false

/-- Byte strings (`&[u8]` / `Vec<u8>`), one `Nat` per byte. -/
abbrev Bytes := List Nat

/-- A composable stream decoder: consume a prefix of the input, return the
remainder and the decoded value, or fail (nom-style parser converted to
`ParsideResult` by the `?` operator at the call sites). -/
abbrev Parser (α : Type) := Bytes → Except String (Bytes × α)

/-- Modelled from the spec: the external Primitive Capability Contract
(cesride `Matter` family — `Siger`, `Prefixer`, `Seqner`, `Saider`).  A
primitive is opaque to the core; the core consumes only
`{code, qb64, qb64b, qb2, full_size}`, each of which is fallible, so a
primitive is modelled by the results of those five operations. -/
structure Primitive where
  code : String
  qb64 : PResult String
  qb64b : PResult Bytes
  qb2 : PResult Bytes
  full_size : PResult Nat
  deriving Repr, DecidableEq

/-- Modelled from the spec: the Counter framing header (external cesride
type): a short group-type code and a non-negative repeat count.
`Counter.count` models the `count()` accessor. -/
structure Counter where
  code : String
  count : Nat
  deriving Repr, DecidableEq

/-- Modelled from the spec: the enumerated tag over the encoding domains a
stream may begin in — at minimum compact text-safe (`CtB64`) and raw binary
(`CtOpB2`); `src/message/cold_code.rs` is not among the provided sources. -/
inductive ColdCode where
  | CtB64
  | CtOpB2
  deriving Repr, DecidableEq

/-- Modelled from the spec: the Primitive Parser Factory
(`src/message/parsers.rs` is not among the provided sources).  One factory
operation per primitive kind, each taking the current cold-start code and
returning a composable stream decoder for that kind; the call sites in the
provided sources apply the `?` operator to the factory result, so each factory
operation is fallible. -/
structure Parsers where
  sigerP : ColdCode → Except String (Parser Primitive)
  prefixerP : ColdCode → Except String (Parser Primitive)
  seqnerP : ColdCode → Except String (Parser Primitive)
  saiderP : ColdCode → Except String (Parser Primitive)

/-- Modelled from the spec: cesride's counter codex code naming the
controller-indexed-signature group type (external constant). -/
def CounterCodex.ControllerIdxSigs : String := "-A"

/-- Modelled from the spec: cesride's counter codex code naming the
seal-source-triple group type (external constant). -/
def CounterCodex.SealSourceTriples : String := "-I"

/-- nom's `count` combinator as used by `from_stream_bytes`: run the item
decoder exactly `n` times, threading the remainder; any failure aborts the
whole parse with that failure. -/
def countP {α : Type} (p : Parser α) : Nat → Parser (List α)
  | 0 => fun input => Except.ok (input, [])
  | n + 1 => fun input =>
      match p input with
      | Except.error e => Except.error e
      | Except.ok (rest, a) =>
          match countP p n rest with
          | Except.error e => Except.error e
          | Except.ok (rest2, l) => Except.ok (rest2, a :: l)

/-- nom's `tuple` combinator over three decoders, as used for one
seal-source triple: prefix, then sequence marker, then digest, in that fixed
field order. -/
def tuple3 {α β γ : Type} (p : Parser α) (q : Parser β) (r : Parser γ) :
    Parser (α × β × γ) := fun input =>
  match p input with
  | Except.error e => Except.error e
  | Except.ok (i1, a) =>
      match q i1 with
      | Except.error e => Except.error e
      | Except.ok (i2, b) =>
          match r i2 with
          | Except.error e => Except.error e
          | Except.ok (i3, c) => Except.ok (i3, (a, b, c))

/-- `out[start..stop].copy_from_slice(&src?)` on a byte vector: Rust first
evaluates the index expression (panicking when `start > stop` or
`stop > out.len()`), then the argument (propagating its `Err` or panic), then
`copy_from_slice` itself panics unless the destination and source lengths
match; on success the bytes `start..stop` of `out` are replaced by `src`. -/
def copyFromSlice (out : Bytes) (start stop : Nat) (src : PResult Bytes) :
    PResult Bytes :=
  if start ≤ stop ∧ stop ≤ out.length then
    match src with
    | .err e => .err e
    | .panic m => .panic m
    | .ok s =>
        if stop - start = s.length then
          .ok (out.take start ++ s ++ out.drop stop)
        else .panic "copy_from_slice length mismatch"
  else .panic "slice index out of range"

/-- One controller indexed signature (`ControllerIdxSig`): owns one `Siger`
primitive. -/
structure ControllerIdxSig where
  siger : Primitive
  deriving Repr, DecidableEq

/-- The controller-indexed-signature group (`ControllerIdxSigs`): an ordered
sequence of items. -/
structure ControllerIdxSigs where
  value : List ControllerIdxSig
  deriving Repr, DecidableEq

/-- `ControllerIdxSigs::CODE` (`Group::CODE` bound to the counter codex). -/
def ControllerIdxSigs.CODE : String := CounterCodex.ControllerIdxSigs

/-- `ControllerIdxSigs::from_stream_bytes`: obtain the siger decoder from the
factory for the given cold code, run it `counter.count()` times with nom's
`count`, and wrap the decoded sigers. -/
def ControllerIdxSigs.from_stream_bytes (F : Parsers) (bytes : Bytes)
    (counter : Counter) (cold_code : ColdCode) :
    Except String (Bytes × ControllerIdxSigs) :=
  match F.sigerP cold_code with
  | Except.error e => Except.error e
  | Except.ok p =>
      match countP p counter.count bytes with
      | Except.error e => Except.error e
      | Except.ok (rest, body) =>
          Except.ok (rest, ControllerIdxSigs.mk
            (body.map (fun siger => ControllerIdxSig.mk siger)))

/-- `GroupItem::qb64` for `ControllerIdxSig`: delegate to the siger. -/
def ControllerIdxSig.qb64 (s : ControllerIdxSig) : PResult String :=
  s.siger.qb64

/-- `GroupItem::qb64b` for `ControllerIdxSig`: delegate to the siger. -/
def ControllerIdxSig.qb64b (s : ControllerIdxSig) : PResult Bytes :=
  s.siger.qb64b

/-- `GroupItem::qb2` for `ControllerIdxSig`: delegate to the siger. -/
def ControllerIdxSig.qb2 (s : ControllerIdxSig) : PResult Bytes :=
  s.siger.qb2

/-- One seal source triple (`SealSourceTriple`): owns a `Prefixer`, a
`Seqner` and a `Saider`, in that declared field order. -/
structure SealSourceTriple where
  prefixer : Primitive
  seqner : Primitive
  saider : Primitive
  deriving Repr, DecidableEq

/-- The seal-source-triple group (`SealSourceTriples`): an ordered sequence
of triples. -/
structure SealSourceTriples where
  value : List SealSourceTriple
  deriving Repr, DecidableEq

/-- `SealSourceTriples::CODE` (`Group::CODE` bound to the counter codex). -/
def SealSourceTriples.CODE : String := CounterCodex.SealSourceTriples

/-- `SealSourceTriples::from_stream_bytes`: obtain the prefixer, seqner and
saider decoders from the factory (in that order, each through `?`), run their
`tuple` `counter.count()` times with nom's `count`, and wrap each decoded
`(prefixer, seqner, saider)` as a `SealSourceTriple`. -/
def SealSourceTriples.from_stream_bytes (F : Parsers) (bytes : Bytes)
    (counter : Counter) (cold_code : ColdCode) :
    Except String (Bytes × SealSourceTriples) :=
  match F.prefixerP cold_code with
  | Except.error e => Except.error e
  | Except.ok pp =>
      match F.seqnerP cold_code with
      | Except.error e => Except.error e
      | Except.ok sp =>
          match F.saiderP cold_code with
          | Except.error e => Except.error e
          | Except.ok dp =>
              match countP (tuple3 pp sp dp) counter.count bytes with
              | Except.error e => Except.error e
              | Except.ok (rest, body) =>
                  Except.ok (rest, SealSourceTriples.mk
                    (body.map (fun x =>
                      SealSourceTriple.mk x.1 x.2.1 x.2.2)))

/-- `SealSourceTriple::full_size`: the sum of the prefixer's, seqner's and
saider's `full_size` values, each obtained through `?`. -/
def SealSourceTriple.full_size (t : SealSourceTriple) : PResult Nat :=
  match t.prefixer.full_size with
  | .err e => .err e
  | .panic m => .panic m
  | .ok a =>
      match t.seqner.full_size with
      | .err e => .err e
      | .panic m => .panic m
      | .ok b =>
          match t.saider.full_size with
          | .err e => .err e
          | .panic m => .panic m
          | .ok c => .ok (a + b + c)

/-- `SealSourceTriple::qb64`: a string built by appending the prefixer's,
seqner's and saider's `qb64` renderings, in that order. -/
def SealSourceTriple.qb64 (t : SealSourceTriple) : PResult String :=
  match t.prefixer.qb64 with
  | .err e => .err e
  | .panic m => .panic m
  | .ok a =>
      match t.seqner.qb64 with
      | .err e => .err e
      | .panic m => .panic m
      | .ok b =>
          match t.saider.qb64 with
          | .err e => .err e
          | .panic m => .panic m
          | .ok c => .ok ("" ++ a ++ b ++ c)

/-- `SealSourceTriple::qb64b`, statement for statement: allocate
`vec![0u8; full_size()?]`; `offset = 0`; `len = prefixer.full_size()?`;
`out[offset..len].copy_from_slice(&prefixer.qb64b()?)`; `offset += len`;
`len = seqner.full_size()?`; `out[offset..len].copy_from_slice(...)`;
`offset += len`; `len = saider.full_size()?`;
`out[offset..len].copy_from_slice(...)`; return `out`.  Note the slice is
`out[offset..len]`, with `len` (not `offset + len`) as the range end, exactly
as in the source. -/
def SealSourceTriple.qb64b (t : SealSourceTriple) : PResult Bytes :=
  match t.full_size with
  | .err e => .err e
  | .panic m => .panic m
  | .ok fs =>
      match t.prefixer.full_size with
      | .err e => .err e
      | .panic m => .panic m
      | .ok len1 =>
          match copyFromSlice (List.replicate fs 0) 0 len1 t.prefixer.qb64b with
          | .err e => .err e
          | .panic m => .panic m
          | .ok out1 =>
              match t.seqner.full_size with
              | .err e => .err e
              | .panic m => .panic m
              | .ok len2 =>
                  match copyFromSlice out1 (0 + len1) len2 t.seqner.qb64b with
                  | .err e => .err e
                  | .panic m => .panic m
                  | .ok out2 =>
                      match t.saider.full_size with
                      | .err e => .err e
                      | .panic m => .panic m
                      | .ok len3 =>
                          match copyFromSlice out2 (0 + len1 + len2) len3
                              t.saider.qb64b with
                          | .err e => .err e
                          | .panic m => .panic m
                          | .ok out3 => .ok out3

/-- `SealSourceTriple::qb2`, statement for statement: allocate
`vec![0u8; full_size()? / 4 * 3]`; each field's share is its own
`full_size()? / 4 * 3`; same `out[offset..len]` ranges as the source. -/
def SealSourceTriple.qb2 (t : SealSourceTriple) : PResult Bytes :=
  match t.full_size with
  | .err e => .err e
  | .panic m => .panic m
  | .ok fs =>
      match t.prefixer.full_size with
      | .err e => .err e
      | .panic m => .panic m
      | .ok fs1 =>
          match copyFromSlice (List.replicate (fs / 4 * 3) 0) 0 (fs1 / 4 * 3)
              t.prefixer.qb2 with
          | .err e => .err e
          | .panic m => .panic m
          | .ok out1 =>
              match t.seqner.full_size with
              | .err e => .err e
              | .panic m => .panic m
              | .ok fs2 =>
                  match copyFromSlice out1 (0 + fs1 / 4 * 3) (fs2 / 4 * 3)
                      t.seqner.qb2 with
                  | .err e => .err e
                  | .panic m => .panic m
                  | .ok out2 =>
                      match t.saider.full_size with
                      | .err e => .err e
                      | .panic m => .panic m
                      | .ok fs3 =>
                          match copyFromSlice out2 (0 + fs1 / 4 * 3 + fs2 / 4 * 3)
                              (fs3 / 4 * 3) t.saider.qb2 with
                          | .err e => .err e
                          | .panic m => .panic m
                          | .ok out3 => .ok out3

/-- The `Number` payload of the generic value type (`src/data.rs`).  The
unused `f64` field of the source is omitted: the claims under verification
never inspect it and floating point is outside the embedding; `float` is the
discriminant flag of the source. -/
structure Number where
  i : Int
  float : Bool

/-- The generic dynamic JSON-like value type of `src/data.rs`. -/
inductive Value where
  | null : Value
  | boolean : Bool → Value
  | number : Number → Value
  | string : String → Value
  | array : List Value → Value
  | object : List (String × Value) → Value

/-- `<Value as Data>::to_cesr` (`src/data.rs`): the body is
`unimplemented!()`, which panics with the message "not implemented". -/
def Value.to_cesr (_ : Value) : PResult String :=
  .panic "not implemented"

/-- `<Value as Data>::to_cesrb` (`src/data.rs`): the body is
`unimplemented!()`, which panics with the message "not implemented". -/
def Value.to_cesrb (_ : Value) : PResult Bytes :=
  .panic "not implemented"

/-- Running the count combinator `n` times and succeeding yields exactly `n`
decoded items. -/
theorem countP_length {α : Type} (p : Parser α) :
    ∀ (n : Nat) (input rest : Bytes) (l : List α),
      countP p n input = Except.ok (rest, l) → l.length = n := by
  intro n
  induction n with
  | zero =>
      intro input rest l h
      simp [countP] at h
      simp [h.2.symm]
  | succ m ih =>
      intro input rest l h
      simp only [countP] at h
      cases hp : p input with
      | error e => rw [hp] at h; simp at h
      | ok pr =>
          obtain ⟨r1, a⟩ := pr
          rw [hp] at h
          dsimp only at h
          cases hc : countP p m r1 with
          | error e => rw [hc] at h; simp at h
          | ok pr2 =>
              obtain ⟨r2, l2⟩ := pr2
              rw [hc] at h
              simp at h
              rw [← h.2]
              simp [ih r1 r2 l2 hc]

/-- When the input is `n` well-formed items laid end to end followed by a
tail, the count combinator consumes exactly those items, returns them in
order and leaves the tail as remainder. -/
theorem countP_ok {α : Type} (p : Parser α) :
    ∀ (items : List (Bytes × α)) (tail : Bytes),
      (∀ pr ∈ items, ∀ t, p (pr.1 ++ t) = Except.ok (t, pr.2)) →
      countP p items.length ((items.map Prod.fst).flatten ++ tail)
        = Except.ok (tail, items.map Prod.snd) := by
  intro items
  induction items with
  | nil => intro tail h; simp [countP]
  | cons pr rest ih =>
      intro tail h
      have h1 := h pr (List.mem_cons_self pr rest) ((rest.map Prod.fst).flatten ++ tail)
      have h2 : ∀ q ∈ rest, ∀ t, p (q.1 ++ t) = Except.ok (t, q.2) :=
        fun q hq t => h q (List.mem_cons_of_mem pr hq) t
      simp [countP, List.append_assoc, h1, ih tail h2]

/-- When only `j < n` well-formed items are present and the decoder then
fails on what is left, the count combinator propagates that failure. -/
theorem countP_err {α : Type} (p : Parser α) :
    ∀ (items : List (Bytes × α)) (tail : Bytes) (n : Nat) (e : String),
      (∀ pr ∈ items, ∀ t, p (pr.1 ++ t) = Except.ok (t, pr.2)) →
      items.length < n → p tail = Except.error e →
      countP p n ((items.map Prod.fst).flatten ++ tail) = Except.error e := by
  intro items
  induction items with
  | nil =>
      intro tail n e _ hlt hp
      cases n with
      | zero => exact absurd hlt (by simp)
      | succ m => simp [countP, hp]
  | cons pr rest ih =>
      intro tail n e h hlt hp
      cases n with
      | zero => exact absurd hlt (by simp)
      | succ m =>
          have h1 := h pr (List.mem_cons_self pr rest) ((rest.map Prod.fst).flatten ++ tail)
          have h2 : ∀ q ∈ rest, ∀ t, p (q.1 ++ t) = Except.ok (t, q.2) :=
            fun q hq t => h q (List.mem_cons_of_mem pr hq) t
          have hlt2 : rest.length < m := by
            simp only [List.length_cons] at hlt
            omega
          simp [countP, List.append_assoc, h1, ih tail m e h2 hlt2 hp]

/-- A decoder that consumes exactly one fixed byte pattern and produces the
given primitive; instantiates the modelled parser factory in concrete runs. -/
def fixedP (pat : Bytes) (prim : Primitive) : Parser Primitive := fun input =>
  if input.take pat.length = pat then Except.ok (input.drop pat.length, prim)
  else Except.error "primitive decode failed"

/-- `fixedP` consumes its pattern and leaves the tail. -/
theorem fixedP_ok (pat : Bytes) (prim : Primitive) (t : Bytes) :
    fixedP pat prim (pat ++ t) = Except.ok (t, prim) := by
  simp [fixedP, List.take_left, List.drop_left]

/-- A triple of `fixedP` decoders consumes the three patterns in field
order and leaves the tail. -/
theorem tuple3_fixedP_ok (pb sb db : Bytes) (P S D : Primitive) (t : Bytes) :
    tuple3 (fixedP pb P) (fixedP sb S) (fixedP db D) ((pb ++ sb ++ db) ++ t)
      = Except.ok (t, (P, S, D)) := by
  simp [tuple3, List.append_assoc, fixedP_ok]

/-- Example identifier-prefix primitive: 44-character text form. -/
def exPrefixer : Primitive :=
  Primitive.mk "B" (PResult.ok (String.mk (List.replicate 44 'B')))
    (PResult.ok (List.replicate 44 66)) (PResult.ok (List.replicate 33 1))
    (PResult.ok 44)

/-- Example sequence-number primitive: 24-character text form. -/
def exSeqner : Primitive :=
  Primitive.mk "0A" (PResult.ok (String.mk (List.replicate 24 '0')))
    (PResult.ok (List.replicate 24 48)) (PResult.ok (List.replicate 18 2))
    (PResult.ok 24)

/-- Example self-addressing-identifier primitive: 44-character text form. -/
def exSaider : Primitive :=
  Primitive.mk "E" (PResult.ok (String.mk (List.replicate 44 'E')))
    (PResult.ok (List.replicate 44 69)) (PResult.ok (List.replicate 33 3))
    (PResult.ok 44)

/-- Example indexed-signature primitive: 88-character text form. -/
def exSiger : Primitive :=
  Primitive.mk "A" (PResult.ok (String.mk (List.replicate 88 'A')))
    (PResult.ok (List.replicate 88 65)) (PResult.ok (List.replicate 66 4))
    (PResult.ok 88)

/-- Example seal source triple built from the example primitives. -/
def exTriple : SealSourceTriple :=
  SealSourceTriple.mk exPrefixer exSeqner exSaider

/-- A concrete parser factory: each kind decodes its example primitive's
fixed text-byte pattern, for every cold code. -/
def exF : Parsers :=
  Parsers.mk
    (fun _ => Except.ok (fixedP (List.replicate 88 65) exSiger))
    (fun _ => Except.ok (fixedP (List.replicate 44 66) exPrefixer))
    (fun _ => Except.ok (fixedP (List.replicate 24 48) exSeqner))
    (fun _ => Except.ok (fixedP (List.replicate 44 69) exSaider))

/-- C7: for every seal source triple whose constituents report their sizes
successfully, `full_size()` equals the sum of the prefixer's, seqner's and
saider's individual `full_size()` values. -/
theorem seal_source_triple_full_size_additive (t : SealSourceTriple)
    (a b c : Nat)
    (ha : t.prefixer.full_size = PResult.ok a)
    (hb : t.seqner.full_size = PResult.ok b)
    (hc : t.saider.full_size = PResult.ok c) :
    SealSourceTriple.full_size t = PResult.ok (a + b + c) := by
  simp [SealSourceTriple.full_size, ha, hb, hc]

/-- Witness for C7 at the example triple with sizes 44, 24 and 44. -/
theorem seal_source_triple_full_size_additive_witness :
    SealSourceTriple.full_size exTriple = PResult.ok (44 + 24 + 44) :=
  seal_source_triple_full_size_additive exTriple 44 24 44 rfl rfl rfl

/-- C1 (code bug): at the example triple every constituent renders
successfully and `qb64` returns the 112-character concatenation, but `qb64b`
panics — the second field is copied into `out[offset..len]` (here
`out[44..24]`) instead of `out[offset..offset+len]`, a slice-bound panic —
so `qb64b` aborts instead of returning the UTF-8 bytes of `qb64`. -/
theorem seal_source_triple_qb64b_panics :
    SealSourceTriple.qb64 exTriple = PResult.ok (String.mk
      (List.replicate 44 'B' ++ List.replicate 24 '0' ++ List.replicate 44 'E')) ∧
    exTriple.prefixer.qb64b = PResult.ok (List.replicate 44 66) ∧
    exTriple.seqner.qb64b = PResult.ok (List.replicate 24 48) ∧
    exTriple.saider.qb64b = PResult.ok (List.replicate 44 69) ∧
    SealSourceTriple.qb64b exTriple = PResult.panic "slice index out of range" :=
  ⟨by decide, rfl, rfl, rfl, by decide⟩

/-- C2 (code bug): at the example triple every constituent's binary
rendering succeeds and `full_size` is 112, but `qb2` panics on the second
field's slice `out[33..18]` (the same `out[offset..len]` slip in the binary
domain), so no 84-byte concatenation is ever returned. -/
theorem seal_source_triple_qb2_panics :
    exTriple.prefixer.qb2 = PResult.ok (List.replicate 33 1) ∧
    exTriple.seqner.qb2 = PResult.ok (List.replicate 18 2) ∧
    exTriple.saider.qb2 = PResult.ok (List.replicate 33 3) ∧
    SealSourceTriple.full_size exTriple = PResult.ok 112 ∧
    SealSourceTriple.qb2 exTriple = PResult.panic "slice index out of range" :=
  ⟨rfl, rfl, rfl, by decide, by decide⟩

/-- C5 (code bug): a seal-source-triple group parsed from a text-domain
stream consisting of one well-formed triple (44 + 24 + 44 bytes) parses
successfully, but the parsed item's `qb64b` panics on the `out[44..24]`
slice, so concatenating the items' `qb64b` renderings cannot reproduce the
consumed bytes. -/
theorem parsed_seal_group_qb64b_panics :
    SealSourceTriples.from_stream_bytes exF
        (List.replicate 44 66 ++ List.replicate 24 48 ++ List.replicate 44 69)
        (Counter.mk SealSourceTriples.CODE 1) ColdCode.CtB64
      = Except.ok ([], SealSourceTriples.mk [exTriple]) ∧
    SealSourceTriple.qb64b exTriple = PResult.panic "slice index out of range" :=
  ⟨rfl, by decide⟩

/-- C8 counterexample: at the concrete input `Value.null`, `to_cesr` and
`to_cesrb` do not return an error result — the `unimplemented!()` bodies
panic, aborting the program. -/
theorem to_cesr_no_error_at_null :
    PResult.isErr (Value.to_cesr Value.null) = false ∧
    Value.to_cesr Value.null = PResult.panic "not implemented" ∧
    PResult.isErr (Value.to_cesrb Value.null) = false ∧
    Value.to_cesrb Value.null = PResult.panic "not implemented" :=
  ⟨rfl, rfl, rfl, rfl⟩

/-- C8 amended: for every value, `to_cesr` and `to_cesrb` neither succeed
silently nor produce truncated output — they panic with "not implemented"
(a process abort), rather than returning an unsupported-operation error. -/
theorem to_cesr_to_cesrb_always_panic (v : Value) :
    Value.to_cesr v = PResult.panic "not implemented" ∧
    Value.to_cesrb v = PResult.panic "not implemented" :=
  ⟨rfl, rfl⟩

/-- C3: count fidelity.  When the input consists of `counter.count()`
consecutive well-formed items followed by a tail, `from_stream_bytes` (for
both group variants) succeeds with a value sequence of length exactly
`counter.count()` and returns the tail as remainder. -/
theorem from_stream_bytes_count_fidelity
    (F : Parsers) (counter : Counter) (cold : ColdCode)
    (p pp sp dp : Parser Primitive)
    (itemsA : List (Bytes × Primitive)) (tailA : Bytes)
    (itemsB : List (Bytes × (Primitive × Primitive × Primitive))) (tailB : Bytes)
    (hFA : F.sigerP cold = Except.ok p)
    (hA : ∀ pr ∈ itemsA, ∀ t, p (pr.1 ++ t) = Except.ok (t, pr.2))
    (hnA : counter.count = itemsA.length)
    (hFp : F.prefixerP cold = Except.ok pp)
    (hFs : F.seqnerP cold = Except.ok sp)
    (hFd : F.saiderP cold = Except.ok dp)
    (hB : ∀ pr ∈ itemsB, ∀ t, tuple3 pp sp dp (pr.1 ++ t) = Except.ok (t, pr.2))
    (hnB : counter.count = itemsB.length) :
    (∃ g : ControllerIdxSigs,
      ControllerIdxSigs.from_stream_bytes F
          ((itemsA.map Prod.fst).flatten ++ tailA) counter cold
        = Except.ok (tailA, g) ∧ g.value.length = counter.count) ∧
    (∃ g : SealSourceTriples,
      SealSourceTriples.from_stream_bytes F
          ((itemsB.map Prod.fst).flatten ++ tailB) counter cold
        = Except.ok (tailB, g) ∧ g.value.length = counter.count) := by
  constructor
  · refine ⟨ControllerIdxSigs.mk
      (itemsA.map (fun pr => ControllerIdxSig.mk pr.2)), ?_, ?_⟩
    · unfold ControllerIdxSigs.from_stream_bytes
      rw [hFA, hnA]
      dsimp only
      rw [countP_ok p itemsA tailA hA]
      simp [List.map_map]
    · simp [hnA]
  · refine ⟨SealSourceTriples.mk
      (itemsB.map (fun pr => SealSourceTriple.mk pr.2.1 pr.2.2.1 pr.2.2.2)), ?_, ?_⟩
    · unfold SealSourceTriples.from_stream_bytes
      rw [hFp, hFs, hFd, hnB]
      dsimp only
      rw [countP_ok (tuple3 pp sp dp) itemsB tailB hB]
      simp [List.map_map]
    · simp [hnB]

/-- Witness for C3: one signature item of 88 bytes with tail `[7]`, and one
triple item of 44 + 24 + 44 bytes with tail `[9]`, both with count 1. -/
theorem from_stream_bytes_count_fidelity_witness :
    (∃ g : ControllerIdxSigs,
      ControllerIdxSigs.from_stream_bytes exF (List.replicate 88 65 ++ [7])
          (Counter.mk ControllerIdxSigs.CODE 1) ColdCode.CtB64
        = Except.ok ([7], g) ∧
      g.value.length = (Counter.mk ControllerIdxSigs.CODE 1).count) ∧
    (∃ g : SealSourceTriples,
      SealSourceTriples.from_stream_bytes exF
          ((List.replicate 44 66 ++ List.replicate 24 48 ++ List.replicate 44 69)
            ++ [9])
          (Counter.mk ControllerIdxSigs.CODE 1) ColdCode.CtB64
        = Except.ok ([9], g) ∧
      g.value.length = (Counter.mk ControllerIdxSigs.CODE 1).count) := by
  have h := from_stream_bytes_count_fidelity exF
    (Counter.mk ControllerIdxSigs.CODE 1) ColdCode.CtB64
    (fixedP (List.replicate 88 65) exSiger)
    (fixedP (List.replicate 44 66) exPrefixer)
    (fixedP (List.replicate 24 48) exSeqner)
    (fixedP (List.replicate 44 69) exSaider)
    [(List.replicate 88 65, exSiger)] [7]
    [(List.replicate 44 66 ++ List.replicate 24 48 ++ List.replicate 44 69,
      (exPrefixer, exSeqner, exSaider))] [9]
    rfl
    (by
      intro pr hpr t
      rw [List.mem_singleton] at hpr
      subst hpr
      exact fixedP_ok (List.replicate 88 65) exSiger t)
    rfl rfl rfl rfl
    (by
      intro pr hpr t
      rw [List.mem_singleton] at hpr
      subst hpr
      exact tuple3_fixedP_ok (List.replicate 44 66) (List.replicate 24 48)
        (List.replicate 44 69) exPrefixer exSeqner exSaider t)
    rfl
  simpa using h

/-- C4: all-or-nothing parsing.  When only `j < counter.count()` well-formed
items are present and the item decoder then fails on what is left, both
`from_stream_bytes` entry points propagate the failure; and whenever either
entry point succeeds, the value sequence has length exactly
`counter.count()` — no partial group is ever produced. -/
theorem from_stream_bytes_no_partial_group
    (F : Parsers) (counter : Counter) (cold : ColdCode)
    (p pp sp dp : Parser Primitive)
    (itemsA : List (Bytes × Primitive)) (tailA : Bytes) (eA : String)
    (itemsB : List (Bytes × (Primitive × Primitive × Primitive)))
    (tailB : Bytes) (eB : String)
    (hFA : F.sigerP cold = Except.ok p)
    (hFp : F.prefixerP cold = Except.ok pp)
    (hFs : F.seqnerP cold = Except.ok sp)
    (hFd : F.saiderP cold = Except.ok dp)
    (hA : ∀ pr ∈ itemsA, ∀ t, p (pr.1 ++ t) = Except.ok (t, pr.2))
    (hB : ∀ pr ∈ itemsB, ∀ t, tuple3 pp sp dp (pr.1 ++ t) = Except.ok (t, pr.2))
    (hltA : itemsA.length < counter.count)
    (hltB : itemsB.length < counter.count)
    (heA : p tailA = Except.error eA)
    (heB : tuple3 pp sp dp tailB = Except.error eB) :
    ControllerIdxSigs.from_stream_bytes F
        ((itemsA.map Prod.fst).flatten ++ tailA) counter cold
      = Except.error eA ∧
    SealSourceTriples.from_stream_bytes F
        ((itemsB.map Prod.fst).flatten ++ tailB) counter cold
      = Except.error eB ∧
    (∀ (bytes rest : Bytes) (g : ControllerIdxSigs),
      ControllerIdxSigs.from_stream_bytes F bytes counter cold
        = Except.ok (rest, g) → g.value.length = counter.count) ∧
    (∀ (bytes rest : Bytes) (g : SealSourceTriples),
      SealSourceTriples.from_stream_bytes F bytes counter cold
        = Except.ok (rest, g) → g.value.length = counter.count) := by
  refine ⟨?_, ?_, ?_, ?_⟩
  · unfold ControllerIdxSigs.from_stream_bytes
    rw [hFA]
    dsimp only
    rw [countP_err p itemsA tailA counter.count eA hA hltA heA]
  · unfold SealSourceTriples.from_stream_bytes
    rw [hFp, hFs, hFd]
    dsimp only
    rw [countP_err (tuple3 pp sp dp) itemsB tailB counter.count eB hB hltB heB]
  · intro bytes rest g hok
    unfold ControllerIdxSigs.from_stream_bytes at hok
    rw [hFA] at hok
    dsimp only at hok
    cases hc : countP p counter.count bytes with
    | error e => rw [hc] at hok; simp at hok
    | ok pr =>
        obtain ⟨r, body⟩ := pr
        rw [hc] at hok
        simp at hok
        have hlen := countP_length p counter.count bytes r body hc
        rw [← hok.2]
        simp [hlen]
  · intro bytes rest g hok
    unfold SealSourceTriples.from_stream_bytes at hok
    rw [hFp, hFs, hFd] at hok
    dsimp only at hok
    cases hc : countP (tuple3 pp sp dp) counter.count bytes with
    | error e => rw [hc] at hok; simp at hok
    | ok pr =>
        obtain ⟨r, body⟩ := pr
        rw [hc] at hok
        simp at hok
        have hlen := countP_length (tuple3 pp sp dp) counter.count bytes r body hc
        rw [← hok.2]
        simp [hlen]

/-- Witness for C4: with count 1 and an empty input, zero items are present
and both item decoders fail immediately; the concrete one-item stream of the
other conjuncts parses to a group of length one. -/
theorem from_stream_bytes_no_partial_group_witness :
    ControllerIdxSigs.from_stream_bytes exF []
        (Counter.mk ControllerIdxSigs.CODE 1) ColdCode.CtB64
      = Except.error "primitive decode failed" ∧
    SealSourceTriples.from_stream_bytes exF []
        (Counter.mk ControllerIdxSigs.CODE 1) ColdCode.CtB64
      = Except.error "primitive decode failed" ∧
    (∀ (bytes rest : Bytes) (g : ControllerIdxSigs),
      ControllerIdxSigs.from_stream_bytes exF bytes
          (Counter.mk ControllerIdxSigs.CODE 1) ColdCode.CtB64
        = Except.ok (rest, g) →
      g.value.length = (Counter.mk ControllerIdxSigs.CODE 1).count) ∧
    (∀ (bytes rest : Bytes) (g : SealSourceTriples),
      SealSourceTriples.from_stream_bytes exF bytes
          (Counter.mk ControllerIdxSigs.CODE 1) ColdCode.CtB64
        = Except.ok (rest, g) →
      g.value.length = (Counter.mk ControllerIdxSigs.CODE 1).count) := by
  have h := from_stream_bytes_no_partial_group exF
    (Counter.mk ControllerIdxSigs.CODE 1) ColdCode.CtB64
    (fixedP (List.replicate 88 65) exSiger)
    (fixedP (List.replicate 44 66) exPrefixer)
    (fixedP (List.replicate 24 48) exSeqner)
    (fixedP (List.replicate 44 69) exSaider)
    [] [] "primitive decode failed" [] [] "primitive decode failed"
    rfl rfl rfl rfl
    (by intro pr hpr; exact absurd hpr (List.not_mem_nil pr))
    (by intro pr hpr; exact absurd hpr (List.not_mem_nil pr))
    (by decide) (by decide) rfl rfl
  simpa using h

/-- C6: a seal-source-triple group with count 2 consumes exactly two
consecutive {prefix, sequence, digest} triples in that fixed field order and
returns as remainder exactly the bytes that followed the second triple, with
no reordering, padding or skipping. -/
theorem seal_source_triples_count_two
    (F : Parsers) (counter : Counter) (cold : ColdCode)
    (pp sp dp : Parser Primitive)
    (pb1 sb1 db1 pb2 sb2 db2 tail : Bytes)
    (P1 S1 D1 P2 S2 D2 : Primitive)
    (hFp : F.prefixerP cold = Except.ok pp)
    (hFs : F.seqnerP cold = Except.ok sp)
    (hFd : F.saiderP cold = Except.ok dp)
    (hp1 : ∀ t, pp (pb1 ++ t) = Except.ok (t, P1))
    (hs1 : ∀ t, sp (sb1 ++ t) = Except.ok (t, S1))
    (hd1 : ∀ t, dp (db1 ++ t) = Except.ok (t, D1))
    (hp2 : ∀ t, pp (pb2 ++ t) = Except.ok (t, P2))
    (hs2 : ∀ t, sp (sb2 ++ t) = Except.ok (t, S2))
    (hd2 : ∀ t, dp (db2 ++ t) = Except.ok (t, D2))
    (hcount : counter.count = 2) :
    SealSourceTriples.from_stream_bytes F
        (pb1 ++ sb1 ++ db1 ++ pb2 ++ sb2 ++ db2 ++ tail) counter cold
      = Except.ok (tail, SealSourceTriples.mk
          [SealSourceTriple.mk P1 S1 D1, SealSourceTriple.mk P2 S2 D2]) := by
  unfold SealSourceTriples.from_stream_bytes
  rw [hFp, hFs, hFd, hcount]
  have h1 : tuple3 pp sp dp (pb1 ++ (sb1 ++ (db1 ++ (pb2 ++ (sb2 ++ (db2 ++ tail))))))
      = Except.ok (pb2 ++ (sb2 ++ (db2 ++ tail)), (P1, S1, D1)) := by
    simp [tuple3, hp1, hs1, hd1]
  have h2 : tuple3 pp sp dp (pb2 ++ (sb2 ++ (db2 ++ tail)))
      = Except.ok (tail, (P2, S2, D2)) := by
    simp [tuple3, hp2, hs2, hd2]
  simp [countP, List.append_assoc, h1, h2]

/-- Witness for C6: two concrete triples (44 + 24 + 44 bytes each) followed
by the tail `[1, 2, 3]`. -/
theorem seal_source_triples_count_two_witness :
    SealSourceTriples.from_stream_bytes exF
        (List.replicate 44 66 ++ List.replicate 24 48 ++ List.replicate 44 69
          ++ List.replicate 44 66 ++ List.replicate 24 48 ++ List.replicate 44 69
          ++ [1, 2, 3])
        (Counter.mk SealSourceTriples.CODE 2) ColdCode.CtB64
      = Except.ok ([1, 2, 3], SealSourceTriples.mk [exTriple, exTriple]) :=
  seal_source_triples_count_two exF (Counter.mk SealSourceTriples.CODE 2)
    ColdCode.CtB64
    (fixedP (List.replicate 44 66) exPrefixer)
    (fixedP (List.replicate 24 48) exSeqner)
    (fixedP (List.replicate 44 69) exSaider)
    (List.replicate 44 66) (List.replicate 24 48) (List.replicate 44 69)
    (List.replicate 44 66) (List.replicate 24 48) (List.replicate 44 69)
    [1, 2, 3] exPrefixer exSeqner exSaider exPrefixer exSeqner exSaider
    rfl rfl rfl
    (fixedP_ok (List.replicate 44 66) exPrefixer)
    (fixedP_ok (List.replicate 24 48) exSeqner)
    (fixedP_ok (List.replicate 44 69) exSaider)
    (fixedP_ok (List.replicate 44 66) exPrefixer)
    (fixedP_ok (List.replicate 24 48) exSeqner)
    (fixedP_ok (List.replicate 44 69) exSaider)
    rfl

/-- C9: neither `from_stream_bytes` entry point ever inspects the code of
the counter it is given — only `counter.count()` — so its result is the same
as with a counter carrying the variant's static `CODE`, whatever code the
given counter carries. -/
theorem from_stream_bytes_ignores_counter_code
    (F : Parsers) (bytes : Bytes) (counter : Counter) (cold : ColdCode)
    (code2 : String) :
    ControllerIdxSigs.from_stream_bytes F bytes
        (Counter.mk code2 counter.count) cold
      = ControllerIdxSigs.from_stream_bytes F bytes
        (Counter.mk ControllerIdxSigs.CODE counter.count) cold ∧
    SealSourceTriples.from_stream_bytes F bytes
        (Counter.mk code2 counter.count) cold
      = SealSourceTriples.from_stream_bytes F bytes
        (Counter.mk SealSourceTriples.CODE counter.count) cold :=
  ⟨rfl, rfl⟩

/-- C10: with a counter of count 0 (and the factory yielding decoders for
the given cold code), both `from_stream_bytes` entry points succeed on any
input — the empty slice included — with an empty value sequence and the
whole unconsumed input as remainder. -/
theorem from_stream_bytes_count_zero
    (F : Parsers) (bytes : Bytes) (counter : Counter) (cold : ColdCode)
    (p pp sp dp : Parser Primitive)
    (hFA : F.sigerP cold = Except.ok p)
    (hFp : F.prefixerP cold = Except.ok pp)
    (hFs : F.seqnerP cold = Except.ok sp)
    (hFd : F.saiderP cold = Except.ok dp)
    (h0 : counter.count = 0) :
    ControllerIdxSigs.from_stream_bytes F bytes counter cold
      = Except.ok (bytes, ControllerIdxSigs.mk []) ∧
    SealSourceTriples.from_stream_bytes F bytes counter cold
      = Except.ok (bytes, SealSourceTriples.mk []) := by
  constructor
  · unfold ControllerIdxSigs.from_stream_bytes
    rw [hFA, h0]
    simp [countP]
  · unfold SealSourceTriples.from_stream_bytes
    rw [hFp, hFs, hFd, h0]
    simp [countP]

/-- Witness for C10 at the empty input and a count-0 counter. -/
theorem from_stream_bytes_count_zero_witness :
    ControllerIdxSigs.from_stream_bytes exF []
        (Counter.mk ControllerIdxSigs.CODE 0) ColdCode.CtB64
      = Except.ok ([], ControllerIdxSigs.mk []) ∧
    SealSourceTriples.from_stream_bytes exF []
        (Counter.mk ControllerIdxSigs.CODE 0) ColdCode.CtB64
      = Except.ok ([], SealSourceTriples.mk []) :=
  from_stream_bytes_count_zero exF [] (Counter.mk ControllerIdxSigs.CODE 0)
    ColdCode.CtB64
    (fixedP (List.replicate 88 65) exSiger)
    (fixedP (List.replicate 44 66) exPrefixer)
    (fixedP (List.replicate 24 48) exSeqner)
    (fixedP (List.replicate 44 69) exSaider)
    rfl rfl rfl rfl rfl
